import Mathlib

/-!
# Event emission facade (`internal/event/event.go`)

Shallow embedding of the package `event` and of the part of the package
`core` it calls.  Go code with side effects is written in state-passing
style: the process-wide state is a `World` holding the exporter slot and the
state the exporter itself may read and write.

* `namespace core`: the collaborator package `internal/event/core`, whose
  source is not part of the fragment; every definition there is modelled from
  the specification and says so.
* `namespace event`: the functions of `event.go`, one definition per Go
  function, in the order of the file.
-/

namespace core

/-- Modelled from the spec: Go `error` values are not declared in the
fragment.  An error is either `nil` (`none`) or a non-nil error, represented by
its message. -/
abbrev GoError := Option String

/-- Modelled from the spec: the key type of package `core` is missing.  "Three
well-known keys are reserved: message, error, span-name; all others are
caller-defined." -/
inductive Key where
  | message
  | error
  | spanName
  | user (id : String)
  deriving DecidableEq

/-- Modelled from the spec: the value type of package `core` is missing.  A tag
value is "one of {string, error, untyped}"; an untyped value is a Go
`interface{}` and may be `nil`. -/
inductive Value where
  | untyped (v : Option String)
  | string (s : String)
  | error (e : GoError)
  deriving DecidableEq

/-- Modelled from the spec: the type `core.Tag` is missing.  "Tag:
`{ key: identifier, value: one of {string, error, untyped} }`."  The key is
optional because the Go zero value `core.Tag{}` has no key. -/
structure Tag where
  key : Option Key
  value : Value
  deriving DecidableEq

/-- Modelled from the spec: the Go zero value `core.Tag{}`, the content of an
array slot that a composite literal does not mention (an empty slot). -/
def Tag.zero : Tag := ⟨none, Value.untyped none⟩

/-- Modelled from the spec: `core.Msg.Of`, the tag constructor of the reserved
message key ("`Of(value)` on a key constructs a Tag"). -/
def Msg.Of (message : String) : Tag := ⟨some Key.message, Value.string message⟩

/-- Modelled from the spec: `core.Err.Of`, the tag constructor of the reserved
error key; the error may be `nil`. -/
def Err.Of (err : GoError) : Tag := ⟨some Key.error, Value.error err⟩

/-- Modelled from the spec: `core.Name.Of`, the tag constructor of the reserved
span-name key. -/
def Name.Of (name : String) : Tag := ⟨some Key.spanName, Value.string name⟩

/-- Modelled from the spec: the event type constants of package `core` are
missing.  "kind: enum{Log, Record, Label, StartSpan, EndSpan, Detach}"; the
constructors carry the names the source uses. -/
inductive Kind where
  | LogType
  | RecordType
  | LabelType
  | StartSpanType
  | EndSpanType
  | DetachType
  deriving DecidableEq

/-- Modelled from the spec: the Go array type `[3]core.Tag`, "a plain
fixed-size array" of three builtin tag slots. -/
structure Tag3 where
  t0 : Tag
  t1 : Tag
  t2 : Tag
  deriving DecidableEq

/-- Modelled from the spec: indexing of the `[3]core.Tag` array. -/
def Tag3.get (a : Tag3) (i : Fin 3) : Tag :=
  match i with
  | 0 => a.t0
  | 1 => a.t1
  | 2 => a.t2

/-- Modelled from the spec: the type `core.Event` is missing.  "Event:
`{ kind, builtins: fixed array of up to 3 Tags, extra: ordered sequence of
Tags }`." -/
structure Event where
  kind : Kind
  builtins : Tag3
  extra : List Tag
  deriving DecidableEq

/-- Modelled from the spec: `core.MakeEvent` is missing.
"`MakeEvent(kind, builtins[≤3], extra)`": no validation, construction never
fails, the extra tags are the caller's list. -/
def MakeEvent (typ : Kind) (static : Tag3) (tags : List Tag) : Event :=
  ⟨typ, static, tags⟩

/-- Modelled from the spec: the type `core.TagMap` is missing.  It is the
tag-lookup capability handed to the exporter: "does this event carry tag K,
and what is its value"; "absent keys simply report not present". -/
abbrev TagMap := Key → Option Value

/-- Modelled from the spec: the tag lookup an event offers to the exporter,
over its builtin slots and then its extra tags. -/
def Event.tagMap (ev : Event) : TagMap := fun k =>
  (([ev.builtins.t0, ev.builtins.t1, ev.builtins.t2] ++ ev.extra).find?
    (fun t => decide (t.key = some k))).map Tag.value

/-- Modelled from the spec: the type `core.Exporter` is missing.  An exporter
is a function "of shape `(context, Event, tag-lookup) -> context`"; being Go
code it may have effects, which act on a state of type `σ`. -/
abbrev Exporter (Ctx σ : Type) := Ctx → Event → TagMap → σ → Ctx × σ

/-- Modelled from the spec: the process-wide state.  `exporter` is the "single
mutable slot holding the active exporter" (`none` while unset, as at process
start) and `st` is the state exporters act on. -/
structure World (Ctx σ : Type) where
  exporter : Option (Exporter Ctx σ)
  st : σ

/-- Modelled from the spec: `core.SetExporter` is missing.  "`SetExporter(e)`
replaces the slot's value"; a nil Go function value is `none`. -/
def SetExporter {Ctx σ : Type} (e : Option (Exporter Ctx σ)) (w : World Ctx σ) :
    World Ctx σ :=
  ⟨e, w.st⟩

/-- Modelled from the spec: `core.Export` is missing.  "`Export(ctx, event)`
reads the slot and, if non-nil, calls it synchronously with
`(ctx, event, tagLookup)`, returning the exporter's resulting context; if no
exporter is set, returns the input context unchanged (a pure no-op)." -/
def Export {Ctx σ : Type} (ctx : Ctx) (ev : Event) (w : World Ctx σ) :
    Ctx × World Ctx σ :=
  match w.exporter with
  | none => (ctx, w)
  | some e => ((e ctx ev ev.tagMap w.st).1, ⟨some e, (e ctx ev ev.tagMap w.st).2⟩)

/-- Modelled from the spec: `core.ExportPair` is missing.  The begin event is
emitted at call time and the exporter's context is returned, together with "a
closure that, when invoked, emits a paired" end event; the pair shares
"context lineage", so the closure emits from the returned context.  The
closure is a Go `func()`: it only acts on the world. -/
def ExportPair {Ctx σ : Type} (ctx : Ctx) (begin endEv : Event) (w : World Ctx σ) :
    (Ctx × (World Ctx σ → World Ctx σ)) × World Ctx σ :=
  (((Export ctx begin w).1, fun w1 => (Export (Export ctx begin w).1 endEv w1).2),
    (Export ctx begin w).2)

end core

namespace event

open core

/-- The type `Exporter` of `event.go`: "a function that handles events",
`func(context.Context, core.Event, core.TagMap) context.Context`. -/
abbrev Exporter (Ctx σ : Type) := Ctx → core.Event → core.TagMap → σ → Ctx × σ

/-- Go function `SetExporter` of `event.go`: `core.SetExporter(core.Exporter(e))`. -/
def SetExporter {Ctx σ : Type} (e : Option (Exporter Ctx σ)) (w : World Ctx σ) :
    World Ctx σ :=
  core.SetExporter e w

/-- Go function `Log` of `event.go`: exports a `LogType` event whose array literal names
only `core.Msg.Of(message)`; the context `core.Export` returns is dropped. -/
def Log {Ctx σ : Type} (ctx : Ctx) (message : String) (tags : List Tag)
    (w : World Ctx σ) : World Ctx σ :=
  (core.Export ctx (core.MakeEvent Kind.LogType
    ⟨Msg.Of message, Tag.zero, Tag.zero⟩ tags) w).2

/-- Go function `Error` of `event.go`: exports a `LogType` event whose array literal names
`core.Msg.Of(message)` and `core.Err.Of(err)`. -/
def Error {Ctx σ : Type} (ctx : Ctx) (message : String) (err : GoError)
    (tags : List Tag) (w : World Ctx σ) : World Ctx σ :=
  (core.Export ctx (core.MakeEvent Kind.LogType
    ⟨Msg.Of message, Err.Of err, Tag.zero⟩ tags) w).2

/-- Go function `Metric` of `event.go`: exports a `RecordType` event with the empty array
literal `[3]core.Tag{}`. -/
def Metric {Ctx σ : Type} (ctx : Ctx) (tags : List Tag) (w : World Ctx σ) :
    World Ctx σ :=
  (core.Export ctx (core.MakeEvent Kind.RecordType
    ⟨Tag.zero, Tag.zero, Tag.zero⟩ tags) w).2

/-- Go function `Label` of `event.go`: exports a `LabelType` event and returns the context
of `core.Export`. -/
def Label {Ctx σ : Type} (ctx : Ctx) (tags : List Tag) (w : World Ctx σ) :
    Ctx × World Ctx σ :=
  core.Export ctx (core.MakeEvent Kind.LabelType
    ⟨Tag.zero, Tag.zero, Tag.zero⟩ tags) w

/-- Go function `Start` of `event.go`: `core.ExportPair` on a `StartSpanType` event naming
`core.Name.Of(name)` and an `EndSpanType` event with no tags (`nil`). -/
def Start {Ctx σ : Type} (ctx : Ctx) (name : String) (tags : List Tag)
    (w : World Ctx σ) : (Ctx × (World Ctx σ → World Ctx σ)) × World Ctx σ :=
  core.ExportPair ctx
    (core.MakeEvent Kind.StartSpanType ⟨Name.Of name, Tag.zero, Tag.zero⟩ tags)
    (core.MakeEvent Kind.EndSpanType ⟨Tag.zero, Tag.zero, Tag.zero⟩ [])
    w

/-- Go function `Detach` of `event.go`: exports a `DetachType` event with no tags (`nil`)
and returns the context of `core.Export`. -/
def Detach {Ctx σ : Type} (ctx : Ctx) (w : World Ctx σ) : Ctx × World Ctx σ :=
  core.Export ctx (core.MakeEvent Kind.DetachType
    ⟨Tag.zero, Tag.zero, Tag.zero⟩ []) w

/-- A recording exporter: the exporter `inner` instrumented so that every call
it receives is appended, as the pair of the context and the event it was
called with, to a record kept next to the state of `inner`.  It returns what
`inner` returns. -/
def recording {Ctx σ : Type} (inner : Exporter Ctx σ) :
    Exporter Ctx (σ × List (Ctx × Event)) :=
  fun ctx ev tm s => ((inner ctx ev tm s.1).1, ((inner ctx ev tm s.1).2, s.2 ++ [(ctx, ev)]))

/-- The keys held by the three builtin slots of an event, `none` for a slot
that is not populated. -/
def slotKey (ev : Event) (i : Fin 3) : Option Key := (ev.builtins.get i).key

/-- One use of the emission API.  `start` stands for a call of `Start`
followed by one call of the end-function it returned. -/
inductive Op where
  | log (message : String) (tags : List Tag)
  | error (message : String) (err : GoError) (tags : List Tag)
  | metric (tags : List Tag)
  | label (tags : List Tag)
  | start (name : String) (tags : List Tag)
  | detach
  deriving DecidableEq

/-- Runs one use of the emission API on a world. -/
def Op.run {Ctx σ : Type} (ctx : Ctx) (op : Op) (w : World Ctx σ) : World Ctx σ :=
  match op with
  | Op.log m t => Log ctx m t w
  | Op.error m e t => Error ctx m e t w
  | Op.metric t => Metric ctx t w
  | Op.label t => (Label ctx t w).2
  | Op.start n t => (Start ctx n t w).1.2 (Start ctx n t w).2
  | Op.detach => (Detach ctx w).2

/-- The events an operation constructs: what a recording exporter, installed
on a world with an empty record, has received once the operation has run. -/
def emitted {Ctx σ : Type} (inner : Exporter Ctx σ) (s : σ) (ctx : Ctx) (op : Op) :
    List Event :=
  ((op.run ctx (SetExporter (some (recording inner)) ⟨none, (s, [])⟩)).st.2).map Prod.snd

/-! ## Claims -/

/-- C5: with a recording exporter installed, `Log(ctx, message, tags)`
delivers exactly one event: the record grows by exactly one call, made with
`ctx` and an event of kind Log whose builtin slot 0 is `Msg.Of(message)`, whose
slots 1 and 2 are empty and whose extra tags are `tags`; the exporter's own
state steps once and its returned context is not part of the result. -/
theorem Log_delivers_one_log_event {Ctx σ : Type} (inner : Exporter Ctx σ)
    (ctx : Ctx) (message : String) (tags : List Tag)
    (e0 : Option (Exporter Ctx (σ × List (Ctx × Event)))) (s : σ)
    (l : List (Ctx × Event)) :
    ∃ ev : Event,
      ev.kind = Kind.LogType ∧
      ev.builtins.get 0 = Msg.Of message ∧
      ev.builtins.get 1 = Tag.zero ∧
      ev.builtins.get 2 = Tag.zero ∧
      ev.extra = tags ∧
      Log ctx message tags (SetExporter (some (recording inner)) ⟨e0, (s, l)⟩) =
        ⟨some (recording inner), ((inner ctx ev ev.tagMap s).2, l ++ [(ctx, ev)])⟩ :=
  ⟨⟨Kind.LogType, ⟨Msg.Of message, Tag.zero, Tag.zero⟩, tags⟩, rfl, rfl, rfl, rfl, rfl, rfl⟩

/-- C6: with a recording exporter installed, `Error(ctx, message, err, tags)`
delivers exactly one event, for every error value `err`, nil included: the
record grows by exactly one call, made with `ctx` and an event of kind Log
whose builtin slot 0 is `Msg.Of(message)`, whose slot 1 is `Err.Of(err)`, whose
slot 2 is empty and whose extra tags are `tags`. -/
theorem Error_delivers_one_log_event_with_err {Ctx σ : Type} (inner : Exporter Ctx σ)
    (ctx : Ctx) (message : String) (err : GoError) (tags : List Tag)
    (e0 : Option (Exporter Ctx (σ × List (Ctx × Event)))) (s : σ)
    (l : List (Ctx × Event)) :
    ∃ ev : Event,
      ev.kind = Kind.LogType ∧
      ev.builtins.get 0 = Msg.Of message ∧
      ev.builtins.get 1 = Err.Of err ∧
      ev.builtins.get 2 = Tag.zero ∧
      ev.extra = tags ∧
      Error ctx message err tags (SetExporter (some (recording inner)) ⟨e0, (s, l)⟩) =
        ⟨some (recording inner), ((inner ctx ev ev.tagMap s).2, l ++ [(ctx, ev)])⟩ :=
  ⟨⟨Kind.LogType, ⟨Msg.Of message, Err.Of err, Tag.zero⟩, tags⟩, rfl, rfl, rfl, rfl, rfl, rfl⟩

/-- C2: with a recording exporter installed, `Metric(ctx, tags)` delivers
exactly one event, for a tag list of any length: the record grows by exactly
one call, made with an event of kind Record whose three builtin slots are
empty and whose extra tag sequence is `tags` itself (so same length, elements
and order). -/
theorem Metric_delivers_one_record_event {Ctx σ : Type} (inner : Exporter Ctx σ)
    (ctx : Ctx) (tags : List Tag)
    (e0 : Option (Exporter Ctx (σ × List (Ctx × Event)))) (s : σ)
    (l : List (Ctx × Event)) :
    ∃ ev : Event,
      ev.kind = Kind.RecordType ∧
      (∀ i : Fin 3, ev.builtins.get i = Tag.zero) ∧
      ev.extra = tags ∧
      Metric ctx tags (SetExporter (some (recording inner)) ⟨e0, (s, l)⟩) =
        ⟨some (recording inner), ((inner ctx ev ev.tagMap s).2, l ++ [(ctx, ev)])⟩ :=
  ⟨⟨Kind.RecordType, ⟨Tag.zero, Tag.zero, Tag.zero⟩, tags⟩, rfl,
    by intro i; fin_cases i <;> rfl, rfl, rfl⟩

/-- C8: with an exporter `e` installed (instrumented to record its calls),
`Label(ctx, tags)` delivers exactly one event, of kind Label with the three
builtin slots empty and extra tags `tags`, and returns exactly the context `e`
returned for `ctx` and that event. -/
theorem Label_delivers_one_label_event {Ctx σ : Type} (e : Exporter Ctx σ)
    (ctx : Ctx) (tags : List Tag)
    (e0 : Option (Exporter Ctx (σ × List (Ctx × Event)))) (s : σ)
    (l : List (Ctx × Event)) :
    ∃ ev : Event,
      ev.kind = Kind.LabelType ∧
      (∀ i : Fin 3, ev.builtins.get i = Tag.zero) ∧
      ev.extra = tags ∧
      Label ctx tags (SetExporter (some (recording e)) ⟨e0, (s, l)⟩) =
        ((e ctx ev ev.tagMap s).1,
          ⟨some (recording e), ((e ctx ev ev.tagMap s).2, l ++ [(ctx, ev)])⟩) :=
  ⟨⟨Kind.LabelType, ⟨Tag.zero, Tag.zero, Tag.zero⟩, tags⟩, rfl,
    by intro i; fin_cases i <;> rfl, rfl, rfl⟩

/-- C1: with a recording exporter installed, `Start(ctx, name, tags)` delivers
exactly one event at call time, of kind StartSpan, with builtin slot 0
`Name.Of(name)`, the other two builtin slots empty and extra tags `tags`; every
invocation of the returned end-function, on any later world with that exporter
installed, delivers exactly one further event, of kind EndSpan with the three
builtin slots empty and no extra tags; and when the end-function is not
invoked the record holds as many EndSpan events after the call as before. -/
theorem Start_delivers_start_then_end_per_invocation {Ctx σ : Type}
    (inner : Exporter Ctx σ) (ctx : Ctx) (name : String) (tags : List Tag)
    (e0 : Option (Exporter Ctx (σ × List (Ctx × Event)))) (s : σ)
    (l : List (Ctx × Event)) :
    ∃ ev endEv : Event,
      ev.kind = Kind.StartSpanType ∧
      ev.builtins.get 0 = Name.Of name ∧
      ev.builtins.get 1 = Tag.zero ∧
      ev.builtins.get 2 = Tag.zero ∧
      ev.extra = tags ∧
      endEv.kind = Kind.EndSpanType ∧
      (∀ i : Fin 3, endEv.builtins.get i = Tag.zero) ∧
      endEv.extra = [] ∧
      (Start ctx name tags (SetExporter (some (recording inner)) ⟨e0, (s, l)⟩)).2 =
        ⟨some (recording inner), ((inner ctx ev ev.tagMap s).2, l ++ [(ctx, ev)])⟩ ∧
      (Start ctx name tags (SetExporter (some (recording inner)) ⟨e0, (s, l)⟩)).1.1 =
        (inner ctx ev ev.tagMap s).1 ∧
      (∀ (e1 : Option (Exporter Ctx (σ × List (Ctx × Event)))) (s1 : σ)
          (l1 : List (Ctx × Event)),
        (Start ctx name tags (SetExporter (some (recording inner)) ⟨e0, (s, l)⟩)).1.2
            (SetExporter (some (recording inner)) ⟨e1, (s1, l1)⟩) =
          ⟨some (recording inner),
            ((inner (inner ctx ev ev.tagMap s).1 endEv endEv.tagMap s1).2,
              l1 ++ [((inner ctx ev ev.tagMap s).1, endEv)])⟩) ∧
      ((Start ctx name tags (SetExporter (some (recording inner)) ⟨e0, (s, l)⟩)).2.st.2.filter
          (fun c => decide (c.2.kind = Kind.EndSpanType))).length =
        (l.filter (fun c => decide (c.2.kind = Kind.EndSpanType))).length :=
  ⟨⟨Kind.StartSpanType, ⟨Name.Of name, Tag.zero, Tag.zero⟩, tags⟩,
    ⟨Kind.EndSpanType, ⟨Tag.zero, Tag.zero, Tag.zero⟩, []⟩,
    rfl, rfl, rfl, rfl, rfl, rfl, by intro i; fin_cases i <;> rfl, rfl, rfl, rfl,
    fun _ _ _ => rfl, by
      show ((l ++ [(ctx, _)]).filter _).length = _
      simp [List.filter_append, MakeEvent]⟩

/-- C3: while no exporter is set, every emission call is a no-op: `Label`,
`Detach` and the context component of `Start` return the input context, and
`Label`, `Detach`, `Start`, `Log`, `Error`, `Metric` and the end-function
returned by `Start` leave the world as it is (nothing is delivered; no
operation has an error result). -/
theorem unset_exporter_is_noop {Ctx σ : Type} (ctx : Ctx) (name message : String)
    (err : GoError) (tags : List Tag) (s : σ) :
    Label ctx tags (⟨none, s⟩ : World Ctx σ) = (ctx, ⟨none, s⟩) ∧
    Detach ctx (⟨none, s⟩ : World Ctx σ) = (ctx, ⟨none, s⟩) ∧
    (Start ctx name tags (⟨none, s⟩ : World Ctx σ)).1.1 = ctx ∧
    (Start ctx name tags (⟨none, s⟩ : World Ctx σ)).2 = ⟨none, s⟩ ∧
    Log ctx message tags (⟨none, s⟩ : World Ctx σ) = ⟨none, s⟩ ∧
    Error ctx message err tags (⟨none, s⟩ : World Ctx σ) = ⟨none, s⟩ ∧
    Metric ctx tags (⟨none, s⟩ : World Ctx σ) = ⟨none, s⟩ ∧
    (∀ s1 : σ, (Start ctx name tags (⟨none, s⟩ : World Ctx σ)).1.2 ⟨none, s1⟩ =
      ⟨none, s1⟩) :=
  ⟨rfl, rfl, rfl, rfl, rfl, rfl, rfl, fun _ => rfl⟩

/-- C4: with a recording exporter installed, `Log(ctx, m)` followed by
`Error(ctx, m2, err)` extends the record by exactly two calls, in call order,
both with an event of kind Log; the first event has builtin slot 1 empty and
the second has builtin slot 1 equal to `Err.Of(err)`, which is not an empty
slot.  This holds for every `err`, so for every non-nil one. -/
theorem Log_then_Error_recorded_in_order {Ctx σ : Type} (inner : Exporter Ctx σ)
    (ctx : Ctx) (m m2 : String) (err : GoError) (tags tags2 : List Tag)
    (e0 : Option (Exporter Ctx (σ × List (Ctx × Event)))) (s : σ)
    (l : List (Ctx × Event)) :
    ∃ ev1 ev2 : Event,
      ev1.kind = Kind.LogType ∧ ev2.kind = Kind.LogType ∧
      ev1.builtins.get 0 = Msg.Of m ∧ ev2.builtins.get 0 = Msg.Of m2 ∧
      ev1.builtins.get 1 = Tag.zero ∧
      ev2.builtins.get 1 = Err.Of err ∧ ev2.builtins.get 1 ≠ Tag.zero ∧
      (Error ctx m2 err tags2
        (Log ctx m tags (SetExporter (some (recording inner)) ⟨e0, (s, l)⟩))).st.2 =
        l ++ [(ctx, ev1), (ctx, ev2)] ∧
      (Error ctx m2 err tags2
        (Log ctx m tags (SetExporter (some (recording inner)) ⟨e0, (s, l)⟩))).exporter =
        some (recording inner) :=
  ⟨⟨Kind.LogType, ⟨Msg.Of m, Tag.zero, Tag.zero⟩, tags⟩,
    ⟨Kind.LogType, ⟨Msg.Of m2, Err.Of err, Tag.zero⟩, tags2⟩,
    rfl, rfl, rfl, rfl, rfl, rfl,
    by
      show Err.Of err ≠ Tag.zero
      simp [Err.Of, Tag.zero],
    by
      show (l ++ [(ctx, _)]) ++ [(ctx, _)] = _
      simp [MakeEvent],
    rfl⟩

/-- C7: with an exporter installed (instrumented to record its calls),
`Detach(ctx)` delivers exactly one event, of kind Detach with the three builtin
slots empty and no extra tags, and returns exactly the context the exporter
returned for that event; a `Start` called afterwards on the returned context,
whatever was recorded in between, is recorded after the Detach event. -/
theorem Detach_delivers_one_detach_event {Ctx σ : Type} (e : Exporter Ctx σ)
    (ctx : Ctx) (e0 : Option (Exporter Ctx (σ × List (Ctx × Event)))) (s : σ)
    (l : List (Ctx × Event)) :
    ∃ ev : Event,
      ev.kind = Kind.DetachType ∧
      (∀ i : Fin 3, ev.builtins.get i = Tag.zero) ∧
      ev.extra = [] ∧
      Detach ctx (SetExporter (some (recording e)) ⟨e0, (s, l)⟩) =
        ((e ctx ev ev.tagMap s).1,
          ⟨some (recording e), ((e ctx ev ev.tagMap s).2, l ++ [(ctx, ev)])⟩) ∧
      (∀ (name : String) (tags : List Tag) (s1 : σ) (between : List (Ctx × Event)),
        ∃ sev : Event,
          sev.kind = Kind.StartSpanType ∧
          sev.builtins.get 0 = Name.Of name ∧
          sev.extra = tags ∧
          (Start (Detach ctx (SetExporter (some (recording e)) ⟨e0, (s, l)⟩)).1 name tags
            ⟨some (recording e),
              (s1, (Detach ctx (SetExporter (some (recording e)) ⟨e0, (s, l)⟩)).2.st.2
                ++ between)⟩).2.st.2 =
            l ++ [(ctx, ev)] ++ between ++ [((e ctx ev ev.tagMap s).1, sev)]) :=
  ⟨⟨Kind.DetachType, ⟨Tag.zero, Tag.zero, Tag.zero⟩, []⟩, rfl,
    by intro i; fin_cases i <;> rfl, rfl, rfl,
    fun name tags _ _ =>
      ⟨⟨Kind.StartSpanType, ⟨Name.Of name, Tag.zero, Tag.zero⟩, tags⟩, rfl, rfl, rfl, rfl⟩⟩

/-- C9, as stated, fails: `Log("m")` and `Error("m", boom)` each construct one
event, both of kind Log, yet builtin slot 1 is empty in the first and holds
the error key in the second. -/
theorem kind_does_not_determine_builtin_slots :
    emitted (fun (c : Nat) _ _ (u : Unit) => (c, u)) () 0 (Op.log "m" []) =
      [⟨Kind.LogType, ⟨Msg.Of "m", Tag.zero, Tag.zero⟩, []⟩] ∧
    emitted (fun (c : Nat) _ _ (u : Unit) => (c, u)) () 0 (Op.error "m" (some "boom") []) =
      [⟨Kind.LogType, ⟨Msg.Of "m", Err.Of (some "boom"), Tag.zero⟩, []⟩] ∧
    (⟨Kind.LogType, ⟨Msg.Of "m", Tag.zero, Tag.zero⟩, []⟩ : Event).kind =
      (⟨Kind.LogType, ⟨Msg.Of "m", Err.Of (some "boom"), Tag.zero⟩, []⟩ : Event).kind ∧
    slotKey ⟨Kind.LogType, ⟨Msg.Of "m", Tag.zero, Tag.zero⟩, []⟩ 1 = none ∧
    slotKey ⟨Kind.LogType, ⟨Msg.Of "m", Err.Of (some "boom"), Tag.zero⟩, []⟩ 1 =
      some Key.error ∧
    slotKey ⟨Kind.LogType, ⟨Msg.Of "m", Tag.zero, Tag.zero⟩, []⟩ 1 ≠
      slotKey ⟨Kind.LogType, ⟨Msg.Of "m", Err.Of (some "boom"), Tag.zero⟩, []⟩ 1 :=
  ⟨rfl, rfl, rfl, rfl, rfl, by decide⟩

/-- C9, amended: for two events constructed by the emission API that have the
same kind, builtin slots 0 and 2 are populated alike and hold the same key,
and so does slot 1 unless the kind is Log; in an event of kind Log slot 1 is
empty when `Log` built it and holds the error key when `Error` built it. -/
theorem kind_determines_builtin_slots_up_to_error {Ctx σ : Type}
    (inner : Exporter Ctx σ) (s1 s2 : σ) (c1 c2 : Ctx) (op1 op2 : Op) (e1 e2 : Event)
    (h1 : e1 ∈ emitted inner s1 c1 op1) (h2 : e2 ∈ emitted inner s2 c2 op2)
    (hk : e1.kind = e2.kind) :
    slotKey e1 0 = slotKey e2 0 ∧
    slotKey e1 2 = slotKey e2 2 ∧
    (e1.kind ≠ Kind.LogType → slotKey e1 1 = slotKey e2 1) ∧
    (e1.kind = Kind.LogType →
      ((∃ m t, op1 = Op.log m t) ∧ slotKey e1 1 = none) ∨
      ((∃ m err t, op1 = Op.error m err t) ∧ slotKey e1 1 = some Key.error)) := by
  have key : ∀ (s : σ) (c : Ctx) (op : Op) (e : Event), e ∈ emitted inner s c op →
      (e.kind = Kind.LogType ∧ slotKey e 0 = some Key.message ∧ slotKey e 2 = none ∧
        (((∃ m t, op = Op.log m t) ∧ slotKey e 1 = none) ∨
          ((∃ m err t, op = Op.error m err t) ∧ slotKey e 1 = some Key.error))) ∨
      (e.kind = Kind.StartSpanType ∧ slotKey e 0 = some Key.spanName ∧
        slotKey e 1 = none ∧ slotKey e 2 = none) ∨
      (e.kind ≠ Kind.LogType ∧ e.kind ≠ Kind.StartSpanType ∧ slotKey e 0 = none ∧
        slotKey e 1 = none ∧ slotKey e 2 = none) := by
    intro s c op e he
    cases op <;>
      simp [emitted, Op.run, Log, Error, Metric, Label, Start, Detach, core.ExportPair,
        core.Export, SetExporter, core.SetExporter, recording, core.MakeEvent] at he <;>
      (try rcases he with he | he) <;>
      (try subst he) <;>
      simp [slotKey, Tag3.get, Msg.Of, Err.Of, Name.Of, Tag.zero]
  rcases key s1 c1 op1 e1 h1 with ⟨k1, a1, b1, d1⟩ | ⟨k1, a1, b1, d1⟩ | ⟨k1, n1, a1, b1, d1⟩ <;>
    rcases key s2 c2 op2 e2 h2 with ⟨k2, a2, b2, d2⟩ | ⟨k2, a2, b2, d2⟩ | ⟨k2, n2, a2, b2, d2⟩ <;>
    simp_all

/-- Witness for the amended C9: the theorem applied to the event of `Log("m")`
and the event of `Error("m2", boom)`, both of kind Log. -/
theorem kind_determines_builtin_slots_up_to_error_witness :
    (⟨Kind.LogType, ⟨Msg.Of "m", Tag.zero, Tag.zero⟩, []⟩ : Event) ∈
      emitted (fun (c : Nat) _ _ (u : Unit) => (c, u)) () 0 (Op.log "m" []) ∧
    (⟨Kind.LogType, ⟨Msg.Of "m2", Err.Of (some "boom"), Tag.zero⟩, []⟩ : Event) ∈
      emitted (fun (c : Nat) _ _ (u : Unit) => (c, u)) () 1
        (Op.error "m2" (some "boom") []) ∧
    (⟨Kind.LogType, ⟨Msg.Of "m", Tag.zero, Tag.zero⟩, []⟩ : Event).kind =
      (⟨Kind.LogType, ⟨Msg.Of "m2", Err.Of (some "boom"), Tag.zero⟩, []⟩ : Event).kind ∧
    (slotKey ⟨Kind.LogType, ⟨Msg.Of "m", Tag.zero, Tag.zero⟩, []⟩ 0 =
        slotKey ⟨Kind.LogType, ⟨Msg.Of "m2", Err.Of (some "boom"), Tag.zero⟩, []⟩ 0 ∧
      slotKey ⟨Kind.LogType, ⟨Msg.Of "m", Tag.zero, Tag.zero⟩, []⟩ 2 =
        slotKey ⟨Kind.LogType, ⟨Msg.Of "m2", Err.Of (some "boom"), Tag.zero⟩, []⟩ 2 ∧
      ((⟨Kind.LogType, ⟨Msg.Of "m", Tag.zero, Tag.zero⟩, []⟩ : Event).kind ≠ Kind.LogType →
        slotKey ⟨Kind.LogType, ⟨Msg.Of "m", Tag.zero, Tag.zero⟩, []⟩ 1 =
          slotKey ⟨Kind.LogType, ⟨Msg.Of "m2", Err.Of (some "boom"), Tag.zero⟩, []⟩ 1) ∧
      ((⟨Kind.LogType, ⟨Msg.Of "m", Tag.zero, Tag.zero⟩, []⟩ : Event).kind = Kind.LogType →
        ((∃ m t, Op.log "m" [] = Op.log m t) ∧
          slotKey ⟨Kind.LogType, ⟨Msg.Of "m", Tag.zero, Tag.zero⟩, []⟩ 1 = none) ∨
        ((∃ m err t, Op.log "m" [] = Op.error m err t) ∧
          slotKey ⟨Kind.LogType, ⟨Msg.Of "m", Tag.zero, Tag.zero⟩, []⟩ 1 =
            some Key.error))) :=
  ⟨List.mem_singleton.mpr rfl, List.mem_singleton.mpr rfl, rfl,
    kind_determines_builtin_slots_up_to_error
      (fun (c : Nat) _ _ (u : Unit) => (c, u)) () () 0 1
      (Op.log "m" []) (Op.error "m2" (some "boom") [])
      ⟨Kind.LogType, ⟨Msg.Of "m", Tag.zero, Tag.zero⟩, []⟩
      ⟨Kind.LogType, ⟨Msg.Of "m2", Err.Of (some "boom"), Tag.zero⟩, []⟩
      (List.mem_singleton.mpr rfl) (List.mem_singleton.mpr rfl) rfl⟩

/-- C10 evaluated on the code: on context 0 and the tag list holding one
caller tag, the event `Metric` delivers has kind Record while the event `Label`
delivers has kind Label, two different kinds; both carry the tag list as their
extra tags. -/
theorem Metric_event_is_record_not_label :
    emitted (fun (c : Nat) _ _ (u : Unit) => (c, u)) () 0
        (Op.metric [⟨some (Key.user "k"), Value.string "v"⟩]) =
      [⟨Kind.RecordType, ⟨Tag.zero, Tag.zero, Tag.zero⟩,
        [⟨some (Key.user "k"), Value.string "v"⟩]⟩] ∧
    emitted (fun (c : Nat) _ _ (u : Unit) => (c, u)) () 0
        (Op.label [⟨some (Key.user "k"), Value.string "v"⟩]) =
      [⟨Kind.LabelType, ⟨Tag.zero, Tag.zero, Tag.zero⟩,
        [⟨some (Key.user "k"), Value.string "v"⟩]⟩] ∧
    Kind.RecordType ≠ Kind.LabelType :=
  ⟨rfl, rfl, by decide⟩

end event
